import Mathlib

/-!
Verification of the Sado Music Bot core workflow engine
(submission review, publication, donation lifecycle).

The Python source is shallowly embedded: pure helpers become Lean
functions on `String`/`List Char`, the database becomes an explicit
record of entity lists, and each handler becomes a state-transition
function returning the new state together with the user-visible
outcome.  Python machine integers are modelled as `Int`/`Nat` (no
overflow is relevant at these magnitudes), SQL `NULL` as `Option`,
and Python regular-expression substitution is implemented as an
explicit left-to-right scanner.
-/

namespace SadoMusicBot

/-! ## Python string primitives

`pyIsSpace` models the character class matched by the regex `\s` and
stripped by `str.strip()`; the sources only ever meet ASCII
whitespace, which is what we model. -/

def pyIsSpace (c : Char) : Bool :=
  c == ' ' || c == '\t' || c == '\n' || c == '\r' || c == '\x0b' || c == '\x0c'

/-- `str.strip()` from the right: drop trailing whitespace. -/
def pyStripRight (l : List Char) : List Char :=
  (l.reverse.dropWhile pyIsSpace).reverse

/-- `str.strip()`: drop leading and trailing whitespace. -/
def pyStrip (l : List Char) : List Char :=
  pyStripRight (l.dropWhile pyIsSpace)

/-- Boolean test that `p` is a leading segment of `l`. -/
def listStarts : List Char → List Char → Bool
  | [], _ => true
  | _ :: _, [] => false
  | p :: ps, c :: cs => p == c && listStarts ps cs

theorem listStarts_iff (p l : List Char) :
    listStarts p l = true ↔ ∃ t, l = p ++ t := by
  induction p generalizing l with
  | nil =>
    simp [listStarts]
  | cons x ps ih =>
    cases l with
    | nil =>
      simp [listStarts]
    | cons c cs =>
      simp only [listStarts, Bool.and_eq_true, beq_iff_eq, ih, List.cons_append,
        List.cons.injEq]
      constructor
      · rintro ⟨rfl, t, rfl⟩
        exact ⟨t, rfl, rfl⟩
      · rintro ⟨t, rfl, rfl⟩
        exact ⟨rfl, t, rfl⟩

/-! ## The URL pattern `https?://\S+` (from `_clean_note`)

A match at the head of the text is the scheme `http://` or
`https://` followed by a maximal nonempty run of non-whitespace
characters.  `urlMatchLen` returns the length of that match. -/

def httpChars : List Char := ['h', 't', 't', 'p', ':', '/', '/']

def httpsChars : List Char := ['h', 't', 't', 'p', 's', ':', '/', '/']

def urlSchemeLen (l : List Char) : Option Nat :=
  if listStarts httpsChars l then some 8
  else if listStarts httpChars l then some 7
  else none

def urlMatchLen (l : List Char) : Option Nat :=
  match urlSchemeLen l with
  | none => none
  | some k =>
    if ((l.drop k).takeWhile (fun c => !(pyIsSpace c))).isEmpty then none
    else some (k + ((l.drop k).takeWhile (fun c => !(pyIsSpace c))).length)

theorem urlSchemeLen_pos {l : List Char} {k : Nat} (h : urlSchemeLen l = some k) :
    1 ≤ k := by
  unfold urlSchemeLen at h
  by_cases h8 : listStarts httpsChars l = true
  · rw [if_pos h8] at h
    have := Option.some.inj h
    omega
  · rw [if_neg h8] at h
    by_cases h7 : listStarts httpChars l = true
    · rw [if_pos h7] at h
      have := Option.some.inj h
      omega
    · rw [if_neg h7] at h
      exact absurd h (by simp)

theorem urlMatchLen_pos {l : List Char} {n : Nat} (h : urlMatchLen l = some n) :
    1 ≤ n := by
  unfold urlMatchLen at h
  split at h
  · exact absurd h (by simp)
  · rename_i k hs
    have hk := urlSchemeLen_pos hs
    split at h
    · exact absurd h (by simp)
    · have := Option.some.inj h
      omega

/-! ## `re.sub(r"https?://\S+", "", raw)`

A left-to-right scan: at each position, if the URL pattern matches,
the matched characters are dropped and scanning resumes after them;
otherwise the character is kept.  The scan is written with explicit
fuel (one unit per examined position) so that it computes by kernel
reduction; `stripUrls` supplies the sufficient fuel `l.length`. -/

def stripUrlsF : Nat → List Char → List Char
  | 0, _ => []
  | _ + 1, [] => []
  | f + 1, c :: rest =>
    match urlMatchLen (c :: rest) with
    | some n => stripUrlsF f (List.drop n (c :: rest))
    | none => c :: stripUrlsF f rest

def stripUrls (l : List Char) : List Char := stripUrlsF l.length l

theorem stripUrlsF_nil (f : Nat) : stripUrlsF f [] = [] := by
  cases f <;> rfl

theorem stripUrlsF_fuel (f₁ : Nat) :
    ∀ (f₂ : Nat) (l : List Char), l.length ≤ f₁ → l.length ≤ f₂ →
      stripUrlsF f₁ l = stripUrlsF f₂ l := by
  induction f₁ with
  | zero =>
    intro f₂ l h₁ _
    have : l = [] := List.eq_nil_of_length_eq_zero (Nat.le_zero.mp h₁)
    subst this
    simp [stripUrlsF_nil]
  | succ f ih =>
    intro f₂ l h₁ h₂
    cases l with
    | nil => simp [stripUrlsF_nil]
    | cons c rest =>
      cases f₂ with
      | zero => simp at h₂
      | succ g =>
        cases hm : urlMatchLen (c :: rest) with
        | none =>
          have hr₁ : rest.length ≤ f := by simp at h₁; omega
          have hr₂ : rest.length ≤ g := by simp at h₂; omega
          show stripUrlsF (f + 1) (c :: rest) = stripUrlsF (g + 1) (c :: rest)
          simp only [stripUrlsF, hm]
          rw [ih g rest hr₁ hr₂]
        | some n =>
          have hn : 1 ≤ n := urlMatchLen_pos hm
          have hlen : (List.drop n (c :: rest)).length ≤ f := by
            simp only [List.length_drop, List.length_cons] at *
            omega
          have hlen₂ : (List.drop n (c :: rest)).length ≤ g := by
            simp only [List.length_drop, List.length_cons] at *
            omega
          show stripUrlsF (f + 1) (c :: rest) = stripUrlsF (g + 1) (c :: rest)
          simp only [stripUrlsF, hm]
          rw [ih g _ hlen hlen₂]

theorem stripUrls_nil : stripUrls [] = [] := rfl

theorem stripUrls_cons (c : Char) (rest : List Char) :
    stripUrls (c :: rest) =
      match urlMatchLen (c :: rest) with
      | some n => stripUrls (List.drop n (c :: rest))
      | none => c :: stripUrls rest := by
  cases hm : urlMatchLen (c :: rest) with
  | none =>
    show stripUrlsF (rest.length + 1) (c :: rest) = c :: stripUrls rest
    simp only [stripUrlsF, hm]
    rfl
  | some n =>
    have hn : 1 ≤ n := urlMatchLen_pos hm
    show stripUrlsF (rest.length + 1) (c :: rest) = stripUrls (List.drop n (c :: rest))
    simp only [stripUrlsF, hm]
    exact stripUrlsF_fuel rest.length _ _
      (by simp only [List.length_drop, List.length_cons]; omega) (Nat.le_refl _)

/-! ## `re.sub(r"\s+", " ", raw)`: collapse whitespace runs -/

def collapseWsF : Nat → List Char → List Char
  | 0, _ => []
  | _ + 1, [] => []
  | f + 1, c :: rest =>
    if pyIsSpace c then ' ' :: collapseWsF f (rest.dropWhile pyIsSpace)
    else c :: collapseWsF f rest

def collapseWs (l : List Char) : List Char := collapseWsF l.length l

theorem collapseWsF_nil (f : Nat) : collapseWsF f [] = [] := by
  cases f <;> rfl

theorem dropWhile_length_le (p : Char → Bool) (l : List Char) :
    (l.dropWhile p).length ≤ l.length := by
  induction l with
  | nil => simp [List.dropWhile]
  | cons c rest ih =>
    by_cases h : p c
    · simp only [List.dropWhile, h]
      exact Nat.le_succ_of_le ih
    · simp [List.dropWhile, h]

theorem collapseWsF_fuel (f₁ : Nat) :
    ∀ (f₂ : Nat) (l : List Char), l.length ≤ f₁ → l.length ≤ f₂ →
      collapseWsF f₁ l = collapseWsF f₂ l := by
  induction f₁ with
  | zero =>
    intro f₂ l h₁ _
    have : l = [] := List.eq_nil_of_length_eq_zero (Nat.le_zero.mp h₁)
    subst this
    simp [collapseWsF_nil]
  | succ f ih =>
    intro f₂ l h₁ h₂
    cases l with
    | nil => simp [collapseWsF_nil]
    | cons c rest =>
      cases f₂ with
      | zero => simp at h₂
      | succ g =>
        show collapseWsF (f + 1) (c :: rest) = collapseWsF (g + 1) (c :: rest)
        simp only [collapseWsF]
        have hr₁ : rest.length ≤ f := by simp at h₁; omega
        have hr₂ : rest.length ≤ g := by simp at h₂; omega
        by_cases h : pyIsSpace c = true
        · rw [if_pos h, if_pos h]
          have hd := dropWhile_length_le pyIsSpace rest
          rw [ih g _ (Nat.le_trans hd hr₁) (Nat.le_trans hd hr₂)]
        · rw [if_neg h, if_neg h]
          rw [ih g rest hr₁ hr₂]

theorem collapseWs_nil : collapseWs [] = [] := rfl

theorem collapseWs_cons (c : Char) (rest : List Char) :
    collapseWs (c :: rest) =
      if pyIsSpace c then ' ' :: collapseWs (rest.dropWhile pyIsSpace)
      else c :: collapseWs rest := by
  show collapseWsF (rest.length + 1) (c :: rest) = _
  simp only [collapseWsF]
  by_cases h : pyIsSpace c = true
  · rw [if_pos h, if_pos h]
    have hd := dropWhile_length_le pyIsSpace rest
    rw [collapseWsF_fuel rest.length (rest.dropWhile pyIsSpace).length _ hd (Nat.le_refl _)]
    rfl
  · rw [if_neg h, if_neg h]
    rw [collapseWsF_fuel rest.length rest.length rest (Nat.le_refl _) (Nat.le_refl _)]
    rfl


/-! ## `_clean_note` (donations/handlers.py lines 30-37)

```python
def _clean_note(text: str) -> str | None:
    raw = (text or "").strip()
    raw = re.sub(r"https?://\S+", "", raw)
    raw = re.sub(r"\s+", " ", raw).strip()
    if not raw:
        return None
    return raw[:120]
```
-/

def clean_note_list (l : List Char) : Option (List Char) :=
  let raw0 := pyStrip l
  let raw1 := stripUrls raw0
  let raw2 := pyStrip (collapseWs raw1)
  if raw2.isEmpty then none else some (raw2.take 120)

def _clean_note (s : String) : Option String :=
  (clean_note_list s.data).map String.mk

/-! ## Occurrence predicates and sanitization invariants

`hasSub pat l` says `pat` occurs contiguously inside `l`.  `urlOcc l`
says `l` contains a match of the URL pattern `https?://\S+`, i.e. a
scheme immediately followed by a non-whitespace character. -/

def hasSub (pat l : List Char) : Prop := ∃ u v, l = u ++ pat ++ v

def urlOcc (l : List Char) : Prop :=
  ∃ sch d, (sch = httpChars ∨ sch = httpsChars) ∧ pyIsSpace d = false ∧
    hasSub (sch ++ [d]) l

theorem hasSub_of_eq_append {pat m l a b : List Char}
    (hm : hasSub pat m) (hl : l = a ++ m ++ b) : hasSub pat l := by
  obtain ⟨u, v, rfl⟩ := hm
  exact ⟨a ++ u, v ++ b, by subst hl; simp⟩

theorem hasSub_cons_of {pat l : List Char} (c : Char) (h : hasSub pat l) :
    hasSub pat (c :: l) := by
  obtain ⟨u, v, rfl⟩ := h
  exact ⟨c :: u, v, rfl⟩

theorem urlOcc_of_eq_append {m l a b : List Char}
    (hm : urlOcc m) (hl : l = a ++ m ++ b) : urlOcc l := by
  obtain ⟨sch, d, hsch, hd, hsub⟩ := hm
  exact ⟨sch, d, hsch, hd, hasSub_of_eq_append hsub hl⟩

theorem urlOcc_cons_of {l : List Char} (c : Char) (h : urlOcc l) :
    urlOcc (c :: l) := by
  obtain ⟨sch, d, hsch, hd, hsub⟩ := h
  exact ⟨sch, d, hsch, hd, hasSub_cons_of c hsub⟩

theorem not_urlOcc_nil : ¬ urlOcc [] := by
  rintro ⟨sch, d, hsch, -, u, v, h⟩
  rcases hsch with rfl | rfl <;> simp [httpChars, httpsChars] at h

theorem scheme_chars_nonspace {sch : List Char}
    (hsch : sch = httpChars ∨ sch = httpsChars) :
    ∀ c ∈ sch, pyIsSpace c = false := by
  rcases hsch with rfl | rfl <;> decide

theorem scheme_head {sch : List Char} (hsch : sch = httpChars ∨ sch = httpsChars) :
    ∃ st, sch = 'h' :: st := by
  rcases hsch with rfl | rfl
  · exact ⟨['t', 't', 'p', ':', '/', '/'], rfl⟩
  · exact ⟨['t', 't', 'p', 's', ':', '/', '/'], rfl⟩

/-- A whitespace character cannot begin a scheme, so no URL match
starts at it. -/
theorem urlMatchLen_space_head {e : Char} (t : List Char)
    (he : pyIsSpace e = true) : urlMatchLen (e :: t) = none := by
  have hne : ('h' == e) = false := by
    apply beq_eq_false_iff_ne.mpr
    intro h
    rw [← h] at he
    simp [pyIsSpace] at he
  have h8 : listStarts httpsChars (e :: t) = false := by
    simp [httpsChars, listStarts, hne]
  have h7 : listStarts httpChars (e :: t) = false := by
    simp [httpChars, listStarts, hne]
  unfold urlMatchLen urlSchemeLen
  rw [h8, h7]
  simp

theorem urlMatchLen_of_scheme {l : List Char} {k : Nat}
    (hk : urlSchemeLen l = some k) :
    urlMatchLen l =
      if ((l.drop k).takeWhile (fun c => !(pyIsSpace c))).isEmpty then none
      else some (k + ((l.drop k).takeWhile (fun c => !(pyIsSpace c))).length) := by
  unfold urlMatchLen
  rw [hk]

theorem drop_takeWhile_length (p : Char → Bool) (x : List Char) :
    List.drop (x.takeWhile p).length x = x.dropWhile p := by
  induction x with
  | nil => simp
  | cons c t ih =>
    by_cases h : p c = true
    · simp [List.takeWhile_cons, List.dropWhile_cons, h, ih]
    · simp [List.takeWhile_cons, List.dropWhile_cons, h]

theorem dropWhile_head_false (p : Char → Bool) :
    ∀ (x : List Char) (e : Char) (t : List Char),
      x.dropWhile p = e :: t → p e = false := by
  intro x
  induction x with
  | nil => intro e t h; simp [List.dropWhile] at h
  | cons c r ih =>
    intro e t h
    by_cases hc : p c = true
    · rw [List.dropWhile_cons_of_pos hc] at h
      exact ih e t h
    · rw [List.dropWhile_cons_of_neg hc] at h
      obtain ⟨rfl, -⟩ := List.cons.injEq .. ▸ h
      · exact Bool.not_eq_true _ ▸ hc

/-- If the text begins with a scheme followed by a non-whitespace
character then the URL pattern matches at its head. -/
theorem urlMatchLen_isSome_of_head {sch : List Char} {d : Char} {t l : List Char}
    (hsch : sch = httpChars ∨ sch = httpsChars) (hd : pyIsSpace d = false)
    (hl : l = sch ++ d :: t) : urlMatchLen l ≠ none := by
  have key : ∃ k, urlSchemeLen l = some k ∧ List.drop k l = d :: t := by
    rcases hsch with rfl | rfl
    · have h8 : listStarts httpsChars l = false := by
        subst hl
        simp [httpsChars, httpChars, listStarts]
      have h7 : listStarts httpChars l = true := by
        rw [listStarts_iff]
        exact ⟨d :: t, hl⟩
      refine ⟨7, ?_, ?_⟩
      · unfold urlSchemeLen
        rw [h8, h7]
        simp
      · subst hl
        rfl
    · have h8 : listStarts httpsChars l = true := by
        rw [listStarts_iff]
        exact ⟨d :: t, hl⟩
      refine ⟨8, ?_, ?_⟩
      · unfold urlSchemeLen
        rw [h8]
        simp
      · subst hl
        rfl
  obtain ⟨k, hk, hdrop⟩ := key
  rw [urlMatchLen_of_scheme hk, hdrop]
  have htw : (d :: t).takeWhile (fun c => !(pyIsSpace c)) =
      d :: t.takeWhile (fun c => !(pyIsSpace c)) := by
    rw [List.takeWhile_cons_of_pos]
    simp [hd]
  rw [htw]
  simp

/-- The tail left over after a URL match is empty or begins with
whitespace (`\S+` is maximal). -/
theorem urlMatchLen_drop {l : List Char} {n : Nat} (hm : urlMatchLen l = some n) :
    List.drop n l = [] ∨ ∃ e t, List.drop n l = e :: t ∧ pyIsSpace e = true := by
  have hstruct : ∃ k, urlSchemeLen l = some k ∧
      n = k + ((l.drop k).takeWhile (fun c => !(pyIsSpace c))).length := by
    unfold urlMatchLen at hm
    split at hm
    · exact absurd hm (by simp)
    · rename_i k hk
      split at hm
      · exact absurd hm (by simp)
      · exact ⟨k, hk, (Option.some.inj hm).symm⟩
  obtain ⟨k, hk, rfl⟩ := hstruct
  have hdd : List.drop (k + ((l.drop k).takeWhile (fun c => !(pyIsSpace c))).length) l
      = List.drop ((l.drop k).takeWhile (fun c => !(pyIsSpace c))).length (l.drop k) := by
    rw [List.drop_drop]
  rw [hdd, drop_takeWhile_length]
  cases hcase : (l.drop k).dropWhile (fun c => !(pyIsSpace c)) with
  | nil => exact Or.inl rfl
  | cons e t =>
    right
    refine ⟨e, t, rfl, ?_⟩
    have := dropWhile_head_false (fun c => !(pyIsSpace c)) (l.drop k) e t hcase
    simpa using this

theorem stripUrls_cons_some {c : Char} {rest : List Char} {n : Nat}
    (hm : urlMatchLen (c :: rest) = some n) :
    stripUrls (c :: rest) = stripUrls (List.drop n (c :: rest)) := by
  rw [stripUrls_cons, hm]

theorem stripUrls_cons_none {c : Char} {rest : List Char}
    (hm : urlMatchLen (c :: rest) = none) :
    stripUrls (c :: rest) = c :: stripUrls rest := by
  rw [stripUrls_cons, hm]

theorem collapseWs_cons_pos {c : Char} {rest : List Char} (h : pyIsSpace c = true) :
    collapseWs (c :: rest) = ' ' :: collapseWs (rest.dropWhile pyIsSpace) := by
  rw [collapseWs_cons, if_pos h]

theorem collapseWs_cons_neg {c : Char} {rest : List Char} (h : pyIsSpace c = false) :
    collapseWs (c :: rest) = c :: collapseWs rest := by
  rw [collapseWs_cons, if_neg (by simp [h])]

/-- Any nonempty all-non-whitespace leading segment of the output of
the URL scrub is a leading segment of its input: the scrub only ever
deletes text whose right context is whitespace or the end. -/
theorem stripUrls_keep_head :
    ∀ (fuel : Nat) (l w : List Char), l.length ≤ fuel → w ≠ [] →
      (∀ c ∈ w, pyIsSpace c = false) →
      (∃ t, stripUrls l = w ++ t) → ∃ t, l = w ++ t := by
  intro fuel
  induction fuel with
  | zero =>
    intro l w hl hw _ ⟨t, ht⟩
    have : l = [] := List.eq_nil_of_length_eq_zero (Nat.le_zero.mp hl)
    subst this
    rw [stripUrls_nil] at ht
    exact absurd (List.append_eq_nil.mp ht.symm).1 hw
  | succ fuel ih =>
    intro l w hl hw hns ⟨t, ht⟩
    cases l with
    | nil =>
      rw [stripUrls_nil] at ht
      exact absurd (List.append_eq_nil.mp ht.symm).1 hw
    | cons c rest =>
      cases hm : urlMatchLen (c :: rest) with
      | some n =>
        rw [stripUrls_cons_some hm] at ht
        rcases urlMatchLen_drop hm with hnil | ⟨e, t', he, hsp⟩
        · rw [hnil, stripUrls_nil] at ht
          exact absurd (List.append_eq_nil.mp ht.symm).1 hw
        · rw [he, stripUrls_cons_none (urlMatchLen_space_head t' hsp)] at ht
          cases w with
          | nil => exact absurd rfl hw
          | cons w0 w' =>
            have : w0 = e := (List.cons.injEq .. ▸ ht).1.symm
            subst this
            have := hns w0 (List.mem_cons_self w0 w')
            rw [hsp] at this
            exact absurd this (by simp)
      | none =>
        rw [stripUrls_cons_none hm] at ht
        cases w with
        | nil => exact absurd rfl hw
        | cons w0 w' =>
          obtain ⟨hw0, ht'⟩ := List.cons.injEq .. ▸ ht
          subst hw0
          cases hw' : w' with
          | nil => exact ⟨rest, by simp⟩
          | cons x xs =>
            have hlen : rest.length ≤ fuel := by
              simp only [List.length_cons] at hl
              omega
            have hw'ne : w' ≠ [] := by simp [hw']
            have hns' : ∀ ch ∈ w', pyIsSpace ch = false := fun ch hc =>
              hns ch (List.mem_cons_of_mem _ hc)
            obtain ⟨t₂, ht₂⟩ := ih rest w' hlen hw'ne hns' ⟨t, ht'⟩
            exact ⟨t₂, by rw [ht₂, hw']; rfl⟩

/-- The URL scrub leaves no match of the URL pattern in its output. -/
theorem stripUrls_urlFree_aux :
    ∀ (fuel : Nat) (l : List Char), l.length ≤ fuel → ¬ urlOcc (stripUrls l) := by
  intro fuel
  induction fuel with
  | zero =>
    intro l hl hocc
    have : l = [] := List.eq_nil_of_length_eq_zero (Nat.le_zero.mp hl)
    subst this
    rw [stripUrls_nil] at hocc
    exact not_urlOcc_nil hocc
  | succ fuel ih =>
    intro l hl hocc
    cases l with
    | nil =>
      rw [stripUrls_nil] at hocc
      exact not_urlOcc_nil hocc
    | cons c rest =>
      cases hm : urlMatchLen (c :: rest) with
      | some n =>
        rw [stripUrls_cons_some hm] at hocc
        have hn : 1 ≤ n := urlMatchLen_pos hm
        have : (List.drop n (c :: rest)).length ≤ fuel := by
          simp only [List.length_drop, List.length_cons] at *
          omega
        exact ih _ this hocc
      | none =>
        rw [stripUrls_cons_none hm] at hocc
        obtain ⟨sch, d, hsch, hd, u, v, heq⟩ := hocc
        cases u with
        | nil =>
          simp only [List.nil_append] at heq
          have hpre : ∃ t, stripUrls (c :: rest) = (sch ++ [d]) ++ t := by
            rw [stripUrls_cons_none hm]
            exact ⟨v, by rw [heq]⟩
          have hwne : sch ++ [d] ≠ [] := by simp
          have hwns : ∀ ch ∈ sch ++ [d], pyIsSpace ch = false := by
            intro ch hch
            rcases List.mem_append.mp hch with h | h
            · exact scheme_chars_nonspace hsch ch h
            · rw [List.mem_singleton.mp h]
              exact hd
          obtain ⟨t₂, ht₂⟩ := stripUrls_keep_head (fuel + 1) (c :: rest)
            (sch ++ [d]) hl hwne hwns hpre
          rw [List.append_assoc] at ht₂
          exact urlMatchLen_isSome_of_head hsch hd ht₂ hm
        | cons x u' =>
          obtain ⟨-, htail⟩ := List.cons.injEq .. ▸ heq
          have hocc' : urlOcc (stripUrls rest) :=
            ⟨sch, d, hsch, hd, u', v, htail⟩
          have hlen : rest.length ≤ fuel := by
            simp only [List.length_cons] at hl
            omega
          exact ih rest hlen hocc'

theorem stripUrls_urlFree (l : List Char) : ¬ urlOcc (stripUrls l) :=
  stripUrls_urlFree_aux l.length l (Nat.le_refl _)

/-- After a whitespace run is collapsed, what follows is empty or
non-whitespace. -/
theorem collapseWs_dropWhile_head (rest : List Char) :
    collapseWs (rest.dropWhile pyIsSpace) = [] ∨
      ∃ e t, collapseWs (rest.dropWhile pyIsSpace) = e :: t ∧ pyIsSpace e = false := by
  cases hcase : rest.dropWhile pyIsSpace with
  | nil => exact Or.inl (by rw [collapseWs_nil])
  | cons e t =>
    have he : pyIsSpace e = false := dropWhile_head_false pyIsSpace rest e t hcase
    exact Or.inr ⟨e, collapseWs t, collapseWs_cons_neg he, he⟩

/-- Any nonempty all-non-whitespace leading segment of the collapsed
text is a leading segment of the original text. -/
theorem collapseWs_keep_head :
    ∀ (fuel : Nat) (l w : List Char), l.length ≤ fuel → w ≠ [] →
      (∀ c ∈ w, pyIsSpace c = false) →
      (∃ t, collapseWs l = w ++ t) → ∃ t, l = w ++ t := by
  intro fuel
  induction fuel with
  | zero =>
    intro l w hl hw _ ⟨t, ht⟩
    have : l = [] := List.eq_nil_of_length_eq_zero (Nat.le_zero.mp hl)
    subst this
    rw [collapseWs_nil] at ht
    exact absurd (List.append_eq_nil.mp ht.symm).1 hw
  | succ fuel ih =>
    intro l w hl hw hns ⟨t, ht⟩
    cases l with
    | nil =>
      rw [collapseWs_nil] at ht
      exact absurd (List.append_eq_nil.mp ht.symm).1 hw
    | cons c rest =>
      by_cases hc : pyIsSpace c = true
      · rw [collapseWs_cons_pos hc] at ht
        cases w with
        | nil => exact absurd rfl hw
        | cons w0 w' =>
          have : w0 = ' ' := (List.cons.injEq .. ▸ ht).1.symm
          subst this
          have := hns ' ' (List.mem_cons_self _ _)
          simp [pyIsSpace] at this
      · rw [collapseWs_cons_neg (Bool.not_eq_true _ ▸ hc)] at ht
        cases w with
        | nil => exact absurd rfl hw
        | cons w0 w' =>
          obtain ⟨hw0, ht'⟩ := List.cons.injEq .. ▸ ht
          subst hw0
          cases hw' : w' with
          | nil => exact ⟨rest, by simp⟩
          | cons x xs =>
            have hlen : rest.length ≤ fuel := by
              simp only [List.length_cons] at hl
              omega
            have hw'ne : w' ≠ [] := by simp [hw']
            have hns' : ∀ ch ∈ w', pyIsSpace ch = false := fun ch hcm =>
              hns ch (List.mem_cons_of_mem _ hcm)
            obtain ⟨t₂, ht₂⟩ := ih rest w' hlen hw'ne hns' ⟨t, ht'⟩
            exact ⟨t₂, by rw [ht₂, hw']; rfl⟩

theorem dropWhile_suffix (p : Char → Bool) (l : List Char) :
    ∃ a, l = a ++ l.dropWhile p :=
  ⟨l.takeWhile p, (List.takeWhile_append_dropWhile _ _).symm⟩

/-- A URL match inside the collapsed text was already present in the
original text. -/
theorem collapseWs_urlOcc :
    ∀ (fuel : Nat) (l : List Char), l.length ≤ fuel →
      urlOcc (collapseWs l) → urlOcc l := by
  intro fuel
  induction fuel with
  | zero =>
    intro l hl hocc
    have : l = [] := List.eq_nil_of_length_eq_zero (Nat.le_zero.mp hl)
    subst this
    rw [collapseWs_nil] at hocc
    exact absurd hocc not_urlOcc_nil
  | succ fuel ih =>
    intro l hl hocc
    cases l with
    | nil =>
      rw [collapseWs_nil] at hocc
      exact absurd hocc not_urlOcc_nil
    | cons c rest =>
      by_cases hc : pyIsSpace c = true
      · rw [collapseWs_cons_pos hc] at hocc
        obtain ⟨sch, d, hsch, hd, u, v, heq⟩ := hocc
        cases u with
        | nil =>
          obtain ⟨st, hst⟩ := scheme_head hsch
          rw [hst] at heq
          simp only [List.nil_append, List.cons_append] at heq
          have : ' ' = 'h' := (List.cons.injEq .. ▸ heq).1
          exact absurd this (by decide)
        | cons x u' =>
          obtain ⟨-, htail⟩ := List.cons.injEq .. ▸ heq
          have hocc' : urlOcc (collapseWs (rest.dropWhile pyIsSpace)) :=
            ⟨sch, d, hsch, hd, u', v, htail⟩
          have hdl := dropWhile_length_le pyIsSpace rest
          have hlen : (rest.dropWhile pyIsSpace).length ≤ fuel := by
            simp only [List.length_cons] at hl
            omega
          have hrest : urlOcc (rest.dropWhile pyIsSpace) := ih _ hlen hocc'
          obtain ⟨a, ha⟩ := dropWhile_suffix pyIsSpace rest
          generalize hg : List.dropWhile pyIsSpace rest = m at ha hrest
          have h' : rest = a ++ m ++ [] := by rw [ha, List.append_nil]
          exact urlOcc_cons_of c (urlOcc_of_eq_append hrest h')
      · rw [collapseWs_cons_neg (Bool.not_eq_true _ ▸ hc)] at hocc
        obtain ⟨sch, d, hsch, hd, u, v, heq⟩ := hocc
        cases u with
        | nil =>
          simp only [List.nil_append] at heq
          obtain ⟨st, hst⟩ := scheme_head hsch
          have hw : sch ++ [d] = 'h' :: (st ++ [d]) := by rw [hst]; rfl
          rw [hw] at heq
          simp only [List.cons_append] at heq
          obtain ⟨hch, htail⟩ := List.cons.injEq .. ▸ heq
          have hstne : st ++ [d] ≠ [] := by simp
          have hstns : ∀ ch ∈ st ++ [d], pyIsSpace ch = false := by
            intro ch hmem
            rcases List.mem_append.mp hmem with h | h
            · exact scheme_chars_nonspace hsch ch (by rw [hst]; exact List.mem_cons_of_mem _ h)
            · rw [List.mem_singleton.mp h]
              exact hd
          have hlen : rest.length ≤ fuel := by
            simp only [List.length_cons] at hl
            omega
          obtain ⟨t₂, ht₂⟩ := collapseWs_keep_head fuel rest (st ++ [d]) hlen
            hstne hstns ⟨v, htail⟩
          refine ⟨sch, d, hsch, hd, [], t₂, ?_⟩
          rw [List.nil_append, hw, List.cons_append, ht₂, ← hch]
        | cons x u' =>
          obtain ⟨-, htail⟩ := List.cons.injEq .. ▸ heq
          have hlen : rest.length ≤ fuel := by
            simp only [List.length_cons] at hl
            omega
          exact urlOcc_cons_of c (ih rest hlen ⟨sch, d, hsch, hd, u', v, htail⟩)

/-- `pyStripRight` keeps a prefix of its input. -/
theorem pyStripRight_eq_append (x : List Char) :
    ∃ b, x = pyStripRight x ++ b := by
  obtain ⟨a, ha⟩ := dropWhile_suffix pyIsSpace x.reverse
  generalize hg : List.dropWhile pyIsSpace x.reverse = m at ha
  refine ⟨a.reverse, ?_⟩
  unfold pyStripRight
  rw [hg, ← List.reverse_append, ← ha, List.reverse_reverse]

/-- `str.strip()` keeps a contiguous middle slice of its input. -/
theorem pyStrip_eq_append (l : List Char) :
    ∃ a b, l = a ++ pyStrip l ++ b := by
  obtain ⟨a, ha⟩ := dropWhile_suffix pyIsSpace l
  obtain ⟨b, hb⟩ := pyStripRight_eq_append (l.dropWhile pyIsSpace)
  refine ⟨a, b, ?_⟩
  show l = a ++ pyStripRight (l.dropWhile pyIsSpace) ++ b
  rw [List.append_assoc, ← hb, ← ha]

theorem mem_of_eq_append {c : Char} {m l a b : List Char}
    (h : c ∈ m) (hl : l = a ++ m ++ b) : c ∈ l := by
  subst hl
  exact List.mem_append.mpr (Or.inl (List.mem_append.mpr (Or.inr h)))

/-- Every whitespace character surviving the collapse is the single
space it was replaced with. -/
theorem collapseWs_space_mem :
    ∀ (fuel : Nat) (l : List Char), l.length ≤ fuel →
      ∀ c ∈ collapseWs l, pyIsSpace c = true → c = ' ' := by
  intro fuel
  induction fuel with
  | zero =>
    intro l hl c hc _
    have : l = [] := List.eq_nil_of_length_eq_zero (Nat.le_zero.mp hl)
    subst this
    rw [collapseWs_nil] at hc
    exact absurd hc (List.not_mem_nil c)
  | succ fuel ih =>
    intro l hl c hc hsp
    cases l with
    | nil =>
      rw [collapseWs_nil] at hc
      exact absurd hc (List.not_mem_nil c)
    | cons x rest =>
      by_cases hx : pyIsSpace x = true
      · rw [collapseWs_cons_pos hx] at hc
        rcases List.mem_cons.mp hc with h | h
        · exact h
        · have hdl := dropWhile_length_le pyIsSpace rest
          have hlen : (rest.dropWhile pyIsSpace).length ≤ fuel := by
            simp only [List.length_cons] at hl
            omega
          exact ih _ hlen c h hsp
      · rw [collapseWs_cons_neg (Bool.not_eq_true _ ▸ hx)] at hc
        rcases List.mem_cons.mp hc with h | h
        · subst h
          exact absurd hsp (by simp [hx])
        · have hlen : rest.length ≤ fuel := by
            simp only [List.length_cons] at hl
            omega
          exact ih rest hlen c h hsp

/-- The collapse never leaves two adjacent whitespace characters. -/
theorem collapseWs_no_ws_pair :
    ∀ (fuel : Nat) (l : List Char), l.length ≤ fuel →
      ∀ a b, pyIsSpace a = true → pyIsSpace b = true →
        ¬ hasSub [a, b] (collapseWs l) := by
  intro fuel
  induction fuel with
  | zero =>
    intro l hl a b _ _ ⟨u, v, huv⟩
    have : l = [] := List.eq_nil_of_length_eq_zero (Nat.le_zero.mp hl)
    subst this
    rw [collapseWs_nil] at huv
    simp at huv
  | succ fuel ih =>
    intro l hl a b ha hb hsub
    cases l with
    | nil =>
      rw [collapseWs_nil] at hsub
      obtain ⟨u, v, huv⟩ := hsub
      simp at huv
    | cons x rest =>
      by_cases hx : pyIsSpace x = true
      · rw [collapseWs_cons_pos hx] at hsub
        obtain ⟨u, v, huv⟩ := hsub
        have hdl := dropWhile_length_le pyIsSpace rest
        have hlen : (rest.dropWhile pyIsSpace).length ≤ fuel := by
          simp only [List.length_cons] at hl
          omega
        cases u with
        | nil =>
          simp only [List.nil_append, List.cons_append] at huv
          obtain ⟨-, htail⟩ := List.cons.injEq .. ▸ huv
          rcases collapseWs_dropWhile_head rest with hnil | ⟨e, t, he, hens⟩
          · rw [hnil] at htail
            simp at htail
          · rw [he] at htail
            have : b = e := (List.cons.injEq .. ▸ htail).1.symm
            subst this
            rw [hens] at hb
            exact absurd hb (by simp)
        | cons y u' =>
          obtain ⟨-, htail⟩ := List.cons.injEq .. ▸ huv
          exact ih _ hlen a b ha hb ⟨u', v, htail⟩
      · rw [collapseWs_cons_neg (Bool.not_eq_true _ ▸ hx)] at hsub
        obtain ⟨u, v, huv⟩ := hsub
        have hlen : rest.length ≤ fuel := by
          simp only [List.length_cons] at hl
          omega
        cases u with
        | nil =>
          simp only [List.nil_append, List.cons_append] at huv
          have : x = a := (List.cons.injEq .. ▸ huv).1
          subst this
          exact absurd ha (by simp [hx])
        | cons y u' =>
          obtain ⟨-, htail⟩ := List.cons.injEq .. ▸ huv
          exact ih rest hlen a b ha hb ⟨u', v, htail⟩

/-- Bundle of sanitization invariants of `_clean_note` at the level of
character lists: the kept note is nonempty, at most 120 characters,
contains no URL-pattern match, no two adjacent whitespace characters,
every whitespace character in it is a plain space, and it does not
begin with whitespace. -/
theorem clean_note_list_props (l r : List Char) (h : clean_note_list l = some r) :
    r ≠ [] ∧ r.length ≤ 120 ∧ ¬ urlOcc r ∧
    (∀ a b, pyIsSpace a = true → pyIsSpace b = true → ¬ hasSub [a, b] r) ∧
    (∀ c ∈ r, pyIsSpace c = true → c = ' ') ∧
    (∀ e t, r = e :: t → pyIsSpace e = false) := by
  simp only [clean_note_list] at h
  split at h
  · exact absurd h (by simp)
  · rename_i hne
    have hr : r = (pyStrip (collapseWs (stripUrls (pyStrip l)))).take 120 :=
      (Option.some.inj h).symm
    have hraw2ne : pyStrip (collapseWs (stripUrls (pyStrip l))) ≠ [] := by
      intro hc
      rw [hc] at hne
      simp at hne
    obtain ⟨dr, hdr⟩ : ∃ dr, pyStrip (collapseWs (stripUrls (pyStrip l))) = r ++ dr :=
      ⟨(pyStrip (collapseWs (stripUrls (pyStrip l)))).drop 120,
        by rw [hr]; exact (List.take_append_drop _ _).symm⟩
    obtain ⟨sa, sb, hsab⟩ := pyStrip_eq_append (collapseWs (stripUrls (pyStrip l)))
    refine ⟨?_, ?_, ?_, ?_, ?_, ?_⟩
    · rw [hr]
      intro hcon
      rcases List.take_eq_nil_iff.mp hcon with h120 | hnil
      · exact absurd h120 (by decide)
      · exact hraw2ne hnil
    · rw [hr, List.length_take]
      exact Nat.min_le_left _ _
    · intro hocc
      have heq1 : pyStrip (collapseWs (stripUrls (pyStrip l))) = [] ++ r ++ dr := by
        rw [hdr]
        rfl
      have hocc2 : urlOcc (pyStrip (collapseWs (stripUrls (pyStrip l)))) :=
        urlOcc_of_eq_append hocc heq1
      have hocc3 : urlOcc (collapseWs (stripUrls (pyStrip l))) :=
        urlOcc_of_eq_append hocc2 hsab
      have hocc4 : urlOcc (stripUrls (pyStrip l)) :=
        collapseWs_urlOcc (stripUrls (pyStrip l)).length _ (Nat.le_refl _) hocc3
      exact stripUrls_urlFree (pyStrip l) hocc4
    · intro a b ha hb hsub
      have heq1 : pyStrip (collapseWs (stripUrls (pyStrip l))) = [] ++ r ++ dr := by
        rw [hdr]
        rfl
      have hsub2 : hasSub [a, b] (pyStrip (collapseWs (stripUrls (pyStrip l)))) :=
        hasSub_of_eq_append hsub heq1
      have hsub3 : hasSub [a, b] (collapseWs (stripUrls (pyStrip l))) :=
        hasSub_of_eq_append hsub2 hsab
      exact collapseWs_no_ws_pair (stripUrls (pyStrip l)).length _ (Nat.le_refl _)
        a b ha hb hsub3
    · intro c hc hsp
      have hc2 : c ∈ pyStrip (collapseWs (stripUrls (pyStrip l))) := by
        rw [hdr]
        exact List.mem_append.mpr (Or.inl hc)
      have hc3 : c ∈ collapseWs (stripUrls (pyStrip l)) :=
        mem_of_eq_append hc2 hsab
      exact collapseWs_space_mem (stripUrls (pyStrip l)).length _ (Nat.le_refl _)
        c hc3 hsp
    · intro e t hre
      obtain ⟨b2, hb2⟩ := pyStripRight_eq_append
        ((collapseWs (stripUrls (pyStrip l))).dropWhile pyIsSpace)
      have hkey : (collapseWs (stripUrls (pyStrip l))).dropWhile pyIsSpace =
          e :: ((t ++ dr) ++ b2) := by
        rw [hb2]
        show pyStrip (collapseWs (stripUrls (pyStrip l))) ++ b2 = e :: ((t ++ dr) ++ b2)
        rw [hdr, hre]
        rfl
      exact dropWhile_head_false pyIsSpace _ e _ hkey

/-! ## Python `int()` and number formatting -/

def pyDigit (c : Char) : Bool := '0' ≤ c && c ≤ '9'

def digitsToNat (l : List Char) : Nat :=
  l.foldl (fun acc c => acc * 10 + (c.toNat - '0'.toNat)) 0

/-- `int(s)`: optional sign, then decimal digits, surrounded by
optional whitespace; anything else raises `ValueError` (`none`).
(Underscore digit grouping and non-ASCII digits are not modelled;
no caller relies on them.) -/
def pyIntParse (s : String) : Option Int :=
  match pyStrip s.data with
  | [] => none
  | '-' :: ds =>
    if ds.isEmpty then none
    else if ds.all pyDigit then some (-(digitsToNat ds : Int)) else none
  | '+' :: ds =>
    if ds.isEmpty then none
    else if ds.all pyDigit then some (digitsToNat ds : Int) else none
  | ds =>
    if ds.all pyDigit then some (digitsToNat ds : Int) else none

def insertCommasRev : List Char → Nat → List Char
  | [], _ => []
  | c :: rest, i =>
    if i != 0 && i % 3 == 0 then ',' :: c :: insertCommasRev rest (i + 1)
    else c :: insertCommasRev rest (i + 1)

/-- `f"{n:,}"`: decimal rendering with a comma every three digits. -/
def pyFormatComma (n : Int) : String :=
  let grouped := (insertCommasRev (toString n.natAbs).data.reverse 0).reverse
  String.mk ((if n < 0 then ['-'] else []) ++ grouped)

/-- `f"{amount:,}".replace(",", " ")` as used throughout texts.py. -/
def amountStr (amount : Int) : String :=
  String.mk ((pyFormatComma amount).data.map (fun c => if c == ',' then ' ' else c))

/-- Python truthiness of an optional string (`None` and `""` are falsy). -/
def pyStrTruthy : Option String → Bool
  | none => false
  | some s => !(s == "")

/-- `a or b` for an optional string `a` and a string fallback `b`. -/
def pyOrStr (a : Option String) (b : String) : String :=
  match a with
  | none => b
  | some s => if s == "" then b else s

/-! ## Configuration (config.py) -/

structure Config where
  bot_token : String
  admin_id : Int
  bot_username : String := ""
  app_name : String := "Sado Music"
  max_donations_per_hour : Int := 5
  channel_pop : String := ""
  channel_rock : String := ""
  channel_hiphop : String := ""
  channel_discovery : String := ""
  discussion_pop : String := ""
  discussion_rock : String := ""
  discussion_hiphop : String := ""
  discussion_discovery : String := ""
deriving Repr, DecidableEq

/-- A chat id is a numeric platform id or an `@username` string. -/
inductive ChatRef where
  | num (n : Int)
  | uname (s : String)
deriving Repr, DecidableEq

/-- `_parse_chat_id` (config.py): int when numeric, else the string;
empty input maps to `0`. -/
def _parse_chat_id (val : String) : ChatRef :=
  let v := String.mk (pyStrip val.data)
  if v == "" then ChatRef.num 0
  else
    match pyIntParse v with
    | some n => ChatRef.num n
    | none => ChatRef.uname v

/-- The static `GENRE_CHANNELS` map: genre to the config attribute
holding the destination channel; unknown genres fall back to the
discovery channel (the `.get` default). -/
def GENRE_CHANNELS (genre : String) (cfg : Config) : String :=
  if genre == "Pop" then cfg.channel_pop
  else if genre == "Rock" then cfg.channel_rock
  else if genre == "Hip Hop" then cfg.channel_hiphop
  else if genre == "Rap" then cfg.channel_hiphop
  else if genre == "Indie" then cfg.channel_discovery
  else if genre == "Electronic" then cfg.channel_discovery
  else cfg.channel_discovery

def GENRE_DISCUSSIONS (genre : String) (cfg : Config) : String :=
  if genre == "Pop" then cfg.discussion_pop
  else if genre == "Rock" then cfg.discussion_rock
  else if genre == "Hip Hop" then cfg.discussion_hiphop
  else if genre == "Rap" then cfg.discussion_hiphop
  else if genre == "Indie" then cfg.discussion_discovery
  else if genre == "Electronic" then cfg.discussion_discovery
  else cfg.discussion_discovery

/-- `get_channel_for_genre`: returns `0` when not configured. -/
def get_channel_for_genre (cfg : Config) (genre : String) : ChatRef :=
  let val := GENRE_CHANNELS genre cfg
  if val == "" then ChatRef.num 0 else _parse_chat_id val

/-- `get_discussion_for_genre`: returns `0` when not configured. -/
def get_discussion_for_genre (cfg : Config) (genre : String) : ChatRef :=
  let val := GENRE_DISCUSSIONS genre cfg
  if val == "" then ChatRef.num 0 else _parse_chat_id val

/-! ## Data model (db.py): entity rows as read by the handlers -/

structure Artist where
  artist_id : String
  tg_user_id : Int
  display_name : String
  payment_link : Option String
  profile_url : Option String
  default_genre : Option String
  bio : Option String
deriving Repr, DecidableEq

structure Submission where
  submission_id : String
  artist_id : String
  submitter_user_id : Int
  title : String
  genre : String
  caption : Option String
  telegram_file_id : String
  status : String
  admin_message_id : Option Int
  reviewed_at : Option Int
deriving Repr, DecidableEq

structure Track where
  track_id : String
  artist_id : String
  title : String
  genre : String
  caption : Option String
  telegram_file_id : Option String
  channel_message_id : Int
  discussion_anchor_message_id : Int
  status : String
deriving Repr, DecidableEq

structure DonationEvent where
  donation_id : String
  track_id : String
  artist_id : String
  donor_user_id : Option Int
  donor_name : Option String
  donor_username : Option String
  amount : Int
  note : Option String
  is_anonymous : Int
  status : String
  created_at : Int
  confirmed_at : Option Int
deriving Repr, DecidableEq

/-- An outbound message recorded by the gateway (chat id, payload tag).
Localized rendering is out of scope; the payload records which
notification was sent and for which entity. -/
structure SentMsg where
  chat_id : Int
  payload : String
deriving Repr, DecidableEq

/-- The relational store plus the gateway log.  `next_uuid` stands in
for the uuid generator of fresh entity ids; `next_msg_id` for the
platform-assigned message ids returned by sends. -/
structure BotState where
  artists : List Artist
  submissions : List Submission
  tracks : List Track
  donations : List DonationEvent
  sent : List SentMsg
  next_uuid : Nat
  next_msg_id : Int
deriving Repr, DecidableEq

/-! ## db.py operations -/

def get_artist (st : BotState) (artist_id : String) : Option Artist :=
  st.artists.find? (fun a => a.artist_id == artist_id)

def get_submission (st : BotState) (submission_id : String) : Option Submission :=
  st.submissions.find? (fun s => s.submission_id == submission_id)

def get_track (st : BotState) (track_id : String) : Option Track :=
  st.tracks.find? (fun t => t.track_id == track_id)

def get_donation (st : BotState) (donation_id : String) : Option DonationEvent :=
  st.donations.find? (fun d => d.donation_id == donation_id)

/-- `UPDATE submissions SET status=%s, reviewed_at=%s WHERE submission_id=%s` -/
def set_submission_status (st : BotState) (submission_id status : String)
    (now : Int) : BotState :=
  { st with submissions := st.submissions.map (fun s =>
      if s.submission_id == submission_id then
        { s with status := status, reviewed_at := some now } else s) }

/-- `INSERT INTO tracks(...)`, always with status `ACTIVE`. -/
def insert_track (st : BotState) (track_id artist_id title genre : String)
    (caption telegram_file_id : Option String)
    (channel_msg_id : Int) (discussion_anchor_id : Int) : BotState :=
  { st with tracks := st.tracks ++
      [⟨track_id, artist_id, title, genre, caption, telegram_file_id,
        channel_msg_id, discussion_anchor_id, "ACTIVE"⟩] }

/-- `INSERT INTO donation_events(...)`: status `CREATED`, no note.
Returns the generated donation id. -/
def create_donation (st : BotState) (track_id artist_id : String)
    (donor_user_id : Option Int) (donor_name donor_username : Option String)
    (amount : Int) (is_anonymous : Int) (now : Int) : BotState × String :=
  let donation_id := "don_" ++ toString st.next_uuid
  ({ st with
      donations := st.donations ++
        [⟨donation_id, track_id, artist_id, donor_user_id, donor_name,
          donor_username, amount, none, is_anonymous, "CREATED", now, none⟩],
      next_uuid := st.next_uuid + 1 }, donation_id)

/-- `UPDATE donation_events SET note=%s WHERE donation_id=%s` -/
def set_donation_note (st : BotState) (donation_id : String)
    (note : Option String) : BotState :=
  { st with donations := st.donations.map (fun d =>
      if d.donation_id == donation_id then { d with note := note } else d) }

/-- `UPDATE donation_events SET status=%s ...`; `CONFIRMED` also sets
the confirmation timestamp. -/
def set_donation_status (st : BotState) (donation_id status : String)
    (now : Int) : BotState :=
  if status == "CONFIRMED" then
    { st with donations := st.donations.map (fun d =>
        if d.donation_id == donation_id then
          { d with status := status, confirmed_at := some now } else d) }
  else
    { st with donations := st.donations.map (fun d =>
        if d.donation_id == donation_id then { d with status := status } else d) }

/-- The atomic SQL toggle `is_anonymous = CASE WHEN is_anonymous = 1
THEN 0 ELSE 1 END ... RETURNING is_anonymous`; `none` models the
`ValueError` raised when the row does not exist. -/
def toggle_donation_anon (st : BotState) (donation_id : String) :
    Option (BotState × Int) :=
  match get_donation st donation_id with
  | none => none
  | some d =>
    let newv : Int := if d.is_anonymous == 1 then 0 else 1
    some ({ st with donations := st.donations.map (fun x =>
        if x.donation_id == donation_id then { x with is_anonymous := newv } else x) },
      newv)

/-- `SELECT COUNT(*) FROM donation_events WHERE donor_user_id=%s AND
track_id=%s AND status='CONFIRMED' AND confirmed_at IS NOT NULL AND
confirmed_at>=%s` with cutoff `now - window_seconds`. -/
def count_recent_confirmed (st : BotState) (donor_user_id : Int)
    (track_id : String) (window_seconds : Int) (now : Int) : Nat :=
  (st.donations.filter (fun d =>
    d.donor_user_id == some donor_user_id && d.track_id == track_id &&
    d.status == "CONFIRMED" &&
    (match d.confirmed_at with
     | none => false
     | some t => decide (now - window_seconds ≤ t)))).length

/-! ## texts.py -/

/-- `track_caption_with_payment(title, artist_name, payment_link, caption)` -/
def track_caption_with_payment (title artist_name : String)
    (payment_link caption : Option String) : String :=
  let text := "🎵 <b>" ++ title ++ "</b>\n🎤 " ++ artist_name ++ "\n"
  let text := if pyStrTruthy caption then text ++ "\n" ++ caption.getD "" ++ "\n"
    else text
  if pyStrTruthy payment_link then
    text ++ "\n💳 Support: " ++ payment_link.getD ""
  else text

/-- The parameter names declared by `track_caption_with_payment`
(texts.py line 15). -/
def track_caption_with_payment_params : List String :=
  ["title", "artist_name", "payment_link", "caption"]

/-- The keyword arguments passed to it by the approve handler
(admin/handlers.py lines 220-229). -/
def on_admin_approve_caption_kwargs : List String :=
  ["title", "artist_name", "payment_link", "caption",
   "bot_username", "track_id", "artist_id", "profile_url"]

/-- Python call semantics: a keyword argument not among the declared
parameters raises `TypeError` before the callee body runs. -/
def track_caption_call_ok : Bool :=
  on_admin_approve_caption_kwargs.all
    (fun k => track_caption_with_payment_params.contains k)

/-- `appreciation_public(donor_public, amount, artist_name, track_title, note)` -/
def appreciation_public (donor_public : String) (amount : Int)
    (artist_name track_title : String) (note : Option String) : String :=
  let msg := "❤️ <b>" ++ donor_public ++ "</b> donated <b>" ++ amountStr amount ++
    " so\x27m</b> to <b>" ++ artist_name ++ "</b> (Demo)\n🎵 <i>" ++ track_title ++ "</i>"
  if pyStrTruthy note then msg ++ "\n💬 \"" ++ note.getD "" ++ "\"" else msg

/-- `creator_dm(is_anon, donor_name, donor_username, amount, track_title, note)` -/
def creator_dm (is_anon : Bool) (donor_name donor_username : Option String)
    (amount : Int) (track_title : String) (note : Option String) : String :=
  let msg :=
    if is_anon then
      "You received an anonymous donation 💸 (Demo)\nAmount: <b>" ++
        amountStr amount ++ " so\x27m</b>\nTrack: <i>" ++ track_title ++ "</i>"
    else
      let uname := if pyStrTruthy donor_username then
        " (@" ++ donor_username.getD "" ++ ")" else ""
      "You received a donation 💸 (Demo)\nAmount: <b>" ++ amountStr amount ++
        " so\x27m</b>\nFrom: <b>" ++ pyOrStr donor_name "Unknown" ++ "</b>" ++ uname ++
        "\nTrack: <i>" ++ track_title ++ "</i>"
  if pyStrTruthy note then msg ++ "\nNote: \"" ++ note.getD "" ++ "\"" else msg

/-- The donor name shown publicly on confirmation
(donations/handlers.py line 510): a generic placeholder when
anonymous, else the stored donor name with the caller name as
fallback. -/
def donor_public_name (is_anon : Int) (donor_name : Option String)
    (caller_full_name : String) : String :=
  if is_anon == 1 then "Someone" else pyOrStr donor_name caller_full_name

/-! ## Admin handlers (admin/handlers.py) -/

/-- The user-visible outcome of a moderator action.  `raisedTypeError`
records an uncaught Python `TypeError` escaping the handler. -/
inductive AdminOutcome where
  | notAuthorized (msg : String)
  | answered (msg : String)
  | raisedTypeError (fn : String) (kw : String)
deriving Repr, DecidableEq

/-- `on_admin_approve` (admin/handlers.py lines 174-298).  The handler
runs: authorization, submission lookup, `PENDING` guard, artist
lookup, channel resolution, caption build, channel post, discussion
anchor, track insert, status write, submitter notification.  The
caption build passes keyword arguments that
`track_caption_with_payment` does not declare, which raises
`TypeError` at that point; the branch after it is retained as the
source writes it. -/
def on_admin_approve (cfg : Config) (actor_id : Int) (sub_id : String)
    (now : Int) (st : BotState) : BotState × AdminOutcome :=
  if actor_id ≠ cfg.admin_id then
    (st, AdminOutcome.notAuthorized "You\x27re not authorized.")
  else
    match get_submission st sub_id with
    | none => (st, AdminOutcome.answered "Submission not found.")
    | some sub =>
      if sub.status ≠ "PENDING" then
        (st, AdminOutcome.answered ("Already " ++ sub.status ++ "."))
      else
        match get_artist st sub.artist_id with
        | none => (st, AdminOutcome.answered "Artist not found.")
        | some artist =>
          let track_id := "trk_" ++ toString st.next_uuid
          let channel_id := get_channel_for_genre cfg sub.genre
          let discussion_id := get_discussion_for_genre cfg sub.genre
          if channel_id = ChatRef.num 0 then
            (st, AdminOutcome.answered "Channel not configured for this genre.")
          else if track_caption_call_ok = false then
            (st, AdminOutcome.raisedTypeError "track_caption_with_payment" "bot_username")
          else
            let _post_caption := track_caption_with_payment sub.title
              artist.display_name artist.payment_link sub.caption
            let ch_msg_id := st.next_msg_id
            let st := { st with next_uuid := st.next_uuid + 1,
                                next_msg_id := st.next_msg_id + 1 }
            let (st, disc_msg_id) :=
              if discussion_id ≠ ChatRef.num 0 then
                ({ st with next_msg_id := st.next_msg_id + 1 }, st.next_msg_id)
              else (st, 0)
            let st := insert_track st track_id sub.artist_id sub.title sub.genre
              sub.caption (some sub.telegram_file_id) ch_msg_id disc_msg_id
            let st := set_submission_status st sub_id "APPROVED" now
            let st := { st with sent := st.sent ++
              [⟨sub.submitter_user_id, "submitter_approved:" ++ sub.title⟩] }
            (st, AdminOutcome.answered "✅ Approved and posted!")

/-- `on_admin_reject` (admin/handlers.py lines 301-346). -/
def on_admin_reject (cfg : Config) (actor_id : Int) (sub_id : String)
    (now : Int) (st : BotState) : BotState × AdminOutcome :=
  if actor_id ≠ cfg.admin_id then
    (st, AdminOutcome.notAuthorized "You\x27re not authorized.")
  else
    match get_submission st sub_id with
    | none => (st, AdminOutcome.answered "Submission not found.")
    | some sub =>
      if sub.status ≠ "PENDING" then
        (st, AdminOutcome.answered ("Already " ++ sub.status ++ "."))
      else
        let st := set_submission_status st sub_id "REJECTED" now
        let st := { st with sent := st.sent ++
          [⟨sub.submitter_user_id, "submitter_rejected:" ++ sub.title⟩] }
        (st, AdminOutcome.answered "❌ Rejected")

/-! ## Donation handlers (donations/handlers.py) -/

inductive DonationOutcome where
  | ignored
  | alert (msg : String)
  | answered (msg : String)
  | askNote (donation_id : String) (amount : Int)
  | showConfirmation (donation_id : String)
deriving Repr, DecidableEq

/-- `_create_donation_and_ask_note` (donations/handlers.py lines
148-190): track lookup, ACTIVE guard, artist lookup, then the
donation row is created unconditionally and the note prompt shown. -/
def _create_donation_and_ask_note (track_id : String) (amount : Int)
    (from_user_id : Int) (from_full_name : String)
    (from_username : Option String) (now : Int) (st : BotState) :
    BotState × DonationOutcome :=
  match get_track st track_id with
  | none => (st, DonationOutcome.alert "Track not found")
  | some track =>
    if track.status ≠ "ACTIVE" then
      (st, DonationOutcome.alert "Track is no longer active")
    else
      match get_artist st track.artist_id with
      | none => (st, DonationOutcome.alert "Artist not found")
      | some _artist =>
        let (st, donation_id) := create_donation st track_id track.artist_id
          (some from_user_id) (some from_full_name) from_username amount 0 now
        (st, DonationOutcome.askNote donation_id amount)

/-- `on_custom_amount` (donations/handlers.py lines 76-145): parse
`int(m.text.strip().replace(" ", "").replace(",", ""))`, reject below
1000 and above 1000000 with distinct messages, then the session and
entity checks, then donation creation. -/
def on_custom_amount (text : String) (fsm_track_id : Option String)
    (from_user_id : Int) (from_full_name : String)
    (from_username : Option String) (now : Int) (st : BotState) :
    BotState × DonationOutcome :=
  if listStarts ['/'] text.data then (st, DonationOutcome.ignored)
  else
    let cleaned := String.mk (((pyStrip text.data).filter
      (fun x => !(x == ' '))).filter (fun x => !(x == ',')))
    match pyIntParse cleaned with
    | none => (st, DonationOutcome.answered "❌ Please enter a valid number")
    | some amount =>
      if amount < 1000 then
        (st, DonationOutcome.answered "❌ Minimum amount is 1 000 so\x27m")
      else if amount > 1000000 then
        (st, DonationOutcome.answered "❌ Maximum amount is 1 000 000 so\x27m")
      else
        match fsm_track_id with
        | none => (st, DonationOutcome.answered "Session expired. Please try again.")
        | some track_id =>
          match get_track st track_id with
          | none => (st, DonationOutcome.answered "❌ Track not found")
          | some track =>
            if track.status ≠ "ACTIVE" then
              (st, DonationOutcome.answered "❌ Track is no longer active")
            else
              match get_artist st track.artist_id with
              | none => (st, DonationOutcome.answered "❌ Artist not found")
              | some _artist =>
                let (st, donation_id) := create_donation st track_id
                  track.artist_id (some from_user_id) (some from_full_name)
                  from_username amount 0 now
                (st, DonationOutcome.askNote donation_id amount)

/-- `on_donate_public` (donations/handlers.py lines 214-232): looks
the donation up, toggles anonymity to public when it is set, and
shows the confirmation card.  There is no status guard. -/
def on_donate_public (donation_id : String) (st : BotState) :
    BotState × DonationOutcome :=
  match get_donation st donation_id with
  | none => (st, DonationOutcome.alert "Not found")
  | some d =>
    if d.is_anonymous ≠ 0 then
      match toggle_donation_anon st donation_id with
      | none => (st, DonationOutcome.alert "Not found")
      | some (st', _) => (st', DonationOutcome.showConfirmation donation_id)
    else (st, DonationOutcome.showConfirmation donation_id)

/-- `on_donate_anonymous` (donations/handlers.py lines 235-253):
symmetric to `on_donate_public`; no status guard. -/
def on_donate_anonymous (donation_id : String) (st : BotState) :
    BotState × DonationOutcome :=
  match get_donation st donation_id with
  | none => (st, DonationOutcome.alert "Not found")
  | some d =>
    if d.is_anonymous == 0 then
      match toggle_donation_anon st donation_id with
      | none => (st, DonationOutcome.alert "Not found")
      | some (st', _) => (st', DonationOutcome.showConfirmation donation_id)
    else (st, DonationOutcome.showConfirmation donation_id)

/-- `on_note_text` (donations/handlers.py lines 400-448): cleans the
text and writes the note unconditionally, then re-renders the card.
There is no status guard. -/
def on_note_text (text : String) (fsm_donation_id : Option String)
    (st : BotState) : BotState × DonationOutcome :=
  if listStarts ['/'] text.data then (st, DonationOutcome.ignored)
  else
    match fsm_donation_id with
    | none => (st, DonationOutcome.answered "Session expired.")
    | some donation_id =>
      let note := _clean_note text
      let st := set_donation_note st donation_id note
      match get_donation st donation_id with
      | none => (st, DonationOutcome.answered "Donation not found.")
      | some _d => (st, DonationOutcome.answered "✅ Note saved.")

/-- `on_toggle_anon` (donations/handlers.py lines 332-375), the
`don_anon:` card toggle: it does check the status guard. -/
def on_toggle_anon (donation_id : String) (st : BotState) :
    BotState × DonationOutcome :=
  match get_donation st donation_id with
  | none => (st, DonationOutcome.alert "Not found.")
  | some d =>
    if d.status ≠ "CREATED" then (st, DonationOutcome.alert "Not editable.")
    else
      match toggle_donation_anon st donation_id with
      | none => (st, DonationOutcome.alert "Not found.")
      | some (st', _) => (st', DonationOutcome.answered "Updated.")

/-! ## The DB class surface (db.py) and handler call sites

Python resolves `db.<name>` at call time; a name that the class never
defines raises `AttributeError` before anything runs.  The list below
is the complete set of attributes bound by `class DB` in db.py. -/

def DB_attribute_names : List String :=
  ["db_url", "conn", "__init__",
   "_init_sync", "init",
   "_get_lang_sync", "get_lang", "_set_lang_sync", "set_lang",
   "_get_anon_default_sync", "get_anon_default",
   "_set_anon_default_sync", "set_anon_default",
   "_upsert_artist_sync", "upsert_artist",
   "_get_artist_sync", "get_artist",
   "_get_artist_by_tg_sync", "get_artist_by_tg",
   "_update_artist_field_sync", "update_artist_field",
   "_create_submission_sync", "create_submission",
   "_get_submission_sync", "get_submission",
   "_set_submission_admin_message_sync", "set_submission_admin_message",
   "_set_submission_status_sync", "set_submission_status",
   "_insert_track_sync", "insert_track",
   "_get_track_sync", "get_track",
   "_list_artist_tracks_sync", "list_artist_tracks",
   "_list_artist_tracks_with_file_sync", "list_artist_tracks_with_file",
   "_count_artist_tracks_sync", "count_artist_tracks",
   "_create_donation_sync", "create_donation",
   "_get_donation_sync", "get_donation",
   "_set_donation_note_sync", "set_donation_note",
   "_toggle_donation_anon_sync", "toggle_donation_anon",
   "_set_donation_status_sync", "set_donation_status",
   "_count_recent_confirmed_sync", "count_recent_confirmed"]

def db_has_attr (name : String) : Bool := DB_attribute_names.contains name

/-- The sequence of `db.<name>` accesses on the default `/start` path
(music/handlers.py lines 59 and 138-141). -/
def cmd_start_default_db_calls : List String :=
  ["get_lang", "user_exists", "get_user_type", "get_artist_by_tg"]

/-- `on_search_query` (music/handlers.py lines 317-326). -/
def on_search_query_db_calls : List String :=
  ["get_lang", "search_artists", "search_tracks"]

/-- `cmd_list_channels` (admin/handlers.py line 152). -/
def cmd_list_channels_db_calls : List String := ["get_all_channels"]

/-- `show_channels_list` (music/handlers.py lines 181-183), used by
the channel-list commands. -/
def show_channels_list_db_calls : List String := ["get_lang", "get_all_channels"]

/-- `on_channel_genre` (admin/handlers.py line 118), the last step of
the admin add-channel flow. -/
def on_channel_genre_db_calls : List String := ["add_channel"]

/-- First attribute access in the sequence that raises
`AttributeError`, if any. -/
def first_missing_db_attr (calls : List String) : Option String :=
  calls.find? (fun c => !(db_has_attr c))

/-! ## Helper lemmas for the admin state machine -/

theorem track_caption_call_ok_eq : track_caption_call_ok = false := by decide

/-- The approve handler never changes the store: every reachable
branch aborts before the first write (the caption call raises
`TypeError` on the only path that would write). -/
theorem on_admin_approve_state_id (cfg : Config) (actor : Int) (sub_id : String)
    (now : Int) (st : BotState) :
    (on_admin_approve cfg actor sub_id now st).1 = st := by
  have hok : track_caption_call_ok = false := track_caption_call_ok_eq
  unfold on_admin_approve
  try simp only []
  repeat' split
  all_goals first
    | rfl
    | (rename_i h; exact absurd hok h)

theorem find?_set_submission_status (l : List Submission) (sid status : String)
    (now : Int) :
    (l.map (fun s => if s.submission_id == sid then
        { s with status := status, reviewed_at := some now } else s)).find?
      (fun s => s.submission_id == sid) =
    (l.find? (fun s => s.submission_id == sid)).map
      (fun s => { s with status := status, reviewed_at := some now }) := by
  induction l with
  | nil => rfl
  | cons a l ih =>
    by_cases h : a.submission_id = sid
    · have hb : ((a.submission_id == sid) = true) := by simp [h]
      simp only [List.map_cons, if_pos hb, List.find?]
      simp [h]
    · have hb : ¬((a.submission_id == sid) = true) := by simp [h]
      have h1 : (a.submission_id == sid) = false := by simp [h]
      rw [List.map_cons, if_neg hb]
      simp only [List.find?]
      rw [h1]
      exact ih

theorem get_submission_set_status (st : BotState) (sid status : String) (now : Int) :
    get_submission (set_submission_status st sid status now) sid =
      (get_submission st sid).map
        (fun s => { s with status := status, reviewed_at := some now }) := by
  unfold get_submission set_submission_status
  exact find?_set_submission_status st.submissions sid status now

/-! ## Concrete fixtures for witnesses and evaluations -/

def demo_artist : Artist :=
  ⟨"art_1", 99, "Artist One", some "https://pay.me/a", none, some "Pop", none⟩

def demo_track : Track :=
  ⟨"trk_1", "art_1", "Test Song", "Pop", none, some "file_1", 500, 600, "ACTIVE"⟩

def demo_cfg : Config :=
  { bot_token := "t", admin_id := 12345, bot_username := "bot",
    channel_pop := "@pop", discussion_pop := "@popdisc" }

def bare_cfg : Config := { bot_token := "t", admin_id := 12345 }

def c1_confirmed_donation (i : Nat) : DonationEvent :=
  ⟨"don_c" ++ toString i, "trk_1", "art_1", some 42, some "Dan", none,
    5000, none, 0, "CONFIRMED", 900, some 950⟩

def c1_state : BotState :=
  ⟨[demo_artist], [], [demo_track],
   [c1_confirmed_donation 0, c1_confirmed_donation 1, c1_confirmed_donation 2,
    c1_confirmed_donation 3, c1_confirmed_donation 4], [], 0, 1000⟩

def c2_confirmed_anon : DonationEvent :=
  ⟨"don_1", "trk_1", "art_1", some 42, some "Dan", some "dan", 10000,
    some "old note", 1, "CONFIRMED", 100, some 200⟩

def c2_confirmed_public : DonationEvent :=
  ⟨"don_2", "trk_1", "art_1", some 42, some "Dan", some "dan", 10000,
    none, 0, "CONFIRMED", 100, some 200⟩

def c2_state : BotState :=
  ⟨[demo_artist], [], [demo_track], [c2_confirmed_anon, c2_confirmed_public],
   [], 5, 1000⟩

def c3_approved_submission : Submission :=
  ⟨"sub_1", "art_1", 99, "Test Track", "Pop", none, "file_1", "APPROVED",
    some 7, some 111⟩

def c3_state : BotState :=
  ⟨[demo_artist], [c3_approved_submission], [demo_track], [], [], 0, 1000⟩

def c4_pending_submission : Submission :=
  ⟨"sub_2", "art_1", 99, "Test Track", "Pop", none, "file_1", "PENDING",
    none, none⟩

def c4_state : BotState :=
  ⟨[demo_artist], [c4_pending_submission], [], [], [], 0, 1000⟩

def c7_state : BotState := ⟨[demo_artist], [], [demo_track], [], [], 0, 1000⟩

/-! ## Claim theorems -/

/-- C1: the claim says that before a new donation attempt may create a
DonationEvent, the donor\x27s CONFIRMED count against that track within
the trailing window is queried and the creation refused at the
ceiling.  The code defines the window query
(`count_recent_confirmed`) and the ceiling (`max_donations_per_hour`)
but never calls them from the creation path: with donor 42 already at
the ceiling (5 CONFIRMED donations inside the window),
`_create_donation_and_ask_note` still creates a sixth DonationEvent
and proceeds to the note prompt. -/
theorem c1_donation_created_despite_ceiling :
    count_recent_confirmed c1_state 42 "trk_1" 3600 1000 = 5 ∧
    bare_cfg.max_donations_per_hour = 5 ∧
    (_create_donation_and_ask_note "trk_1" 10000 42 "Dan" none 1000 c1_state).2 =
      DonationOutcome.askNote "don_0" 10000 ∧
    (_create_donation_and_ask_note "trk_1" 10000 42 "Dan" none 1000 c1_state).1.donations.length =
      c1_state.donations.length + 1 := by
  decide

/-- C2: the claim says every note edit and anonymity change on a
non-CREATED donation is rejected as not editable.  On a CONFIRMED
donation the handlers `on_donate_public`, `on_donate_anonymous` and
`on_note_text` have no status guard: they flip `is_anonymous` and
overwrite the note and proceed, while the guarded sibling
`on_toggle_anon` does reject the same donation. -/
theorem c2_non_created_donation_still_mutable :
    c2_confirmed_anon.status = "CONFIRMED" ∧
    c2_confirmed_public.status = "CONFIRMED" ∧
    (on_donate_public "don_1" c2_state).2 =
      DonationOutcome.showConfirmation "don_1" ∧
    (get_donation (on_donate_public "don_1" c2_state).1 "don_1").map
      DonationEvent.is_anonymous = some 0 ∧
    (on_donate_anonymous "don_2" c2_state).2 =
      DonationOutcome.showConfirmation "don_2" ∧
    (get_donation (on_donate_anonymous "don_2" c2_state).1 "don_2").map
      DonationEvent.is_anonymous = some 1 ∧
    (on_note_text "hello there" (some "don_1") c2_state).2 =
      DonationOutcome.answered "✅ Note saved." ∧
    (get_donation (on_note_text "hello there" (some "don_1") c2_state).1 "don_1").map
      DonationEvent.note = some (some "hello there") ∧
    on_toggle_anon "don_1" c2_state = (c2_state, DonationOutcome.alert "Not editable.") := by
  decide

/-- C3: a Submission\x27s status transitions at most once and only from
PENDING: a second moderator action on a non-PENDING submission is a
full no-op answered as already processed (no state change, so no
second Track and no second submitter notification); the approve
handler never writes at all (its caption call aborts first), and the
reject handler either leaves the state unchanged or performs the
single PENDING to REJECTED transition. -/
theorem c3_submission_single_transition (cfg : Config) (actor : Int)
    (sub_id : String) (now : Int) (st : BotState) (sub : Submission)
    (hact : actor = cfg.admin_id)
    (hsub : get_submission st sub_id = some sub)
    (hnp : sub.status ≠ "PENDING") :
    on_admin_approve cfg actor sub_id now st =
      (st, AdminOutcome.answered ("Already " ++ sub.status ++ ".")) ∧
    on_admin_reject cfg actor sub_id now st =
      (st, AdminOutcome.answered ("Already " ++ sub.status ++ ".")) ∧
    (∀ (st₂ : BotState), (on_admin_approve cfg actor sub_id now st₂).1 = st₂) ∧
    (∀ (st₂ : BotState) (sub₂ : Submission),
      get_submission st₂ sub_id = some sub₂ →
      (on_admin_reject cfg actor sub_id now st₂).1 = st₂ ∨
      (sub₂.status = "PENDING" ∧
        get_submission (on_admin_reject cfg actor sub_id now st₂).1 sub_id =
          some { sub₂ with status := "REJECTED", reviewed_at := some now })) := by
  subst hact
  refine ⟨by simp [on_admin_approve, hsub, hnp],
    by simp [on_admin_reject, hsub, hnp],
    fun st₂ => on_admin_approve_state_id cfg _ sub_id now st₂, ?_⟩
  intro st₂ sub₂ hsub₂
  by_cases hp : sub₂.status = "PENDING"
  · right
    refine ⟨hp, ?_⟩
    have h1 : (on_admin_reject cfg cfg.admin_id sub_id now st₂).1.submissions =
        (set_submission_status st₂ sub_id "REJECTED" now).submissions := by
      simp [on_admin_reject, hsub₂, hp, set_submission_status]
    show get_submission (on_admin_reject cfg cfg.admin_id sub_id now st₂).1 sub_id = _
    unfold get_submission
    rw [h1]
    have h2 := get_submission_set_status st₂ sub_id "REJECTED" now
    unfold get_submission at h2
    rw [h2]
    unfold get_submission at hsub₂
    rw [hsub₂]
    rfl
  · left
    simp [on_admin_reject, hsub₂, hp]

theorem c3_witness :
    on_admin_approve demo_cfg 12345 "sub_1" 2000 c3_state =
      (c3_state, AdminOutcome.answered ("Already " ++ c3_approved_submission.status ++ ".")) :=
  (c3_submission_single_transition demo_cfg 12345 "sub_1" 2000 c3_state
    c3_approved_submission (by decide) (by decide) (by decide)).1

/-- C4: the approve handler builds the channel caption by calling
`track_caption_with_payment` with the keyword arguments
`bot_username`, `track_id`, `artist_id` and `profile_url`, none of
which the function declares, so the call raises `TypeError` before
the channel publish, the Track insert or the status write: for any
PENDING submission whose genre resolves to a configured channel the
handler aborts with the `TypeError` and the store is unchanged (the
Submission stays as it was and no Track row appears). -/
theorem c4_approve_caption_call_mismatch (cfg : Config) (actor : Int)
    (sub_id : String) (now : Int) (st : BotState) (sub : Submission)
    (artist : Artist)
    (hact : actor = cfg.admin_id)
    (hsub : get_submission st sub_id = some sub)
    (hpend : sub.status = "PENDING")
    (hart : get_artist st sub.artist_id = some artist)
    (hch : get_channel_for_genre cfg sub.genre ≠ ChatRef.num 0) :
    ("bot_username" ∈ on_admin_approve_caption_kwargs ∧
     "bot_username" ∉ track_caption_with_payment_params ∧
     track_caption_call_ok = false) ∧
    on_admin_approve cfg actor sub_id now st =
      (st, AdminOutcome.raisedTypeError "track_caption_with_payment" "bot_username") ∧
    get_submission (on_admin_approve cfg actor sub_id now st).1 sub_id = some sub ∧
    (on_admin_approve cfg actor sub_id now st).1.tracks = st.tracks := by
  subst hact
  have hok : track_caption_call_ok = false := track_caption_call_ok_eq
  have hmain : on_admin_approve cfg cfg.admin_id sub_id now st =
      (st, AdminOutcome.raisedTypeError "track_caption_with_payment" "bot_username") := by
    simp [on_admin_approve, hsub, hpend, hart, hch, hok]
  refine ⟨⟨by decide, by decide, hok⟩, hmain, ?_, ?_⟩
  · rw [hmain]
    exact hsub
  · rw [hmain]

theorem c4_witness :
    on_admin_approve demo_cfg 12345 "sub_2" 2000 c4_state =
      (c4_state, AdminOutcome.raisedTypeError "track_caption_with_payment" "bot_username") :=
  (c4_approve_caption_call_mismatch demo_cfg 12345 "sub_2" 2000 c4_state
    c4_pending_submission demo_artist (by decide) (by decide) (by decide)
    (by decide) (by decide)).2.1

/-- C5: approving a PENDING submission whose genre has no configured
destination channel (the lookup yields the numeric value 0) aborts
with the configuration-error outcome before any write: the store is
unchanged, the Submission is still found as before (status PENDING)
and no Track row is inserted. -/
theorem c5_approve_channel_not_configured (cfg : Config) (actor : Int)
    (sub_id : String) (now : Int) (st : BotState) (sub : Submission)
    (artist : Artist)
    (hact : actor = cfg.admin_id)
    (hsub : get_submission st sub_id = some sub)
    (hpend : sub.status = "PENDING")
    (hart : get_artist st sub.artist_id = some artist)
    (hch : get_channel_for_genre cfg sub.genre = ChatRef.num 0) :
    on_admin_approve cfg actor sub_id now st =
      (st, AdminOutcome.answered "Channel not configured for this genre.") ∧
    get_submission (on_admin_approve cfg actor sub_id now st).1 sub_id = some sub ∧
    (on_admin_approve cfg actor sub_id now st).1.tracks = st.tracks := by
  subst hact
  have hmain : on_admin_approve cfg cfg.admin_id sub_id now st =
      (st, AdminOutcome.answered "Channel not configured for this genre.") := by
    simp [on_admin_approve, hsub, hpend, hart, hch]
  refine ⟨hmain, ?_, ?_⟩
  · rw [hmain]
    exact hsub
  · rw [hmain]

theorem c5_witness :
    on_admin_approve bare_cfg 12345 "sub_2" 2000 c4_state =
      (c4_state, AdminOutcome.answered "Channel not configured for this genre.") :=
  (c5_approve_channel_not_configured bare_cfg 12345 "sub_2" 2000 c4_state
    c4_pending_submission demo_artist (by decide) (by decide) (by decide)
    (by decide) (by decide)).1

/-- C9: an actor other than the configured moderator gets the
constant not-authorized response from both moderator actions, the
store is unchanged, and the response is independent of the store
contents (in particular it does not reveal whether the submission
exists). -/
theorem c9_unauthorized_action_is_noop (cfg : Config) (actor : Int)
    (sub_id : String) (now : Int) (st st₂ : BotState)
    (h : actor ≠ cfg.admin_id) :
    on_admin_approve cfg actor sub_id now st =
      (st, AdminOutcome.notAuthorized "You\x27re not authorized.") ∧
    on_admin_reject cfg actor sub_id now st =
      (st, AdminOutcome.notAuthorized "You\x27re not authorized.") ∧
    (on_admin_approve cfg actor sub_id now st).2 =
      (on_admin_approve cfg actor sub_id now st₂).2 ∧
    (on_admin_reject cfg actor sub_id now st).2 =
      (on_admin_reject cfg actor sub_id now st₂).2 := by
  refine ⟨?_, ?_, ?_, ?_⟩ <;> simp [on_admin_approve, on_admin_reject, h]

theorem c9_witness :
    on_admin_approve demo_cfg 99999 "sub_1" 2000 c3_state =
      (c3_state, AdminOutcome.notAuthorized "You\x27re not authorized.") :=
  (c9_unauthorized_action_is_noop demo_cfg 99999 "sub_1" 2000 c3_state
    c3_state (by decide)).1

/-- C10: the handlers call `db.user_exists`, `db.get_user_type`,
`db.get_all_channels`, `db.add_channel`, `db.search_artists` and
`db.search_tracks`, none of which `class DB` defines, so each of
these code paths stops at its first such attribute access with
`AttributeError`. -/
theorem c10_db_missing_attributes :
    db_has_attr "user_exists" = false ∧
    db_has_attr "get_user_type" = false ∧
    db_has_attr "get_all_channels" = false ∧
    db_has_attr "add_channel" = false ∧
    db_has_attr "search_artists" = false ∧
    db_has_attr "search_tracks" = false ∧
    first_missing_db_attr cmd_start_default_db_calls = some "user_exists" ∧
    first_missing_db_attr on_search_query_db_calls = some "search_artists" ∧
    first_missing_db_attr cmd_list_channels_db_calls = some "get_all_channels" ∧
    first_missing_db_attr show_channels_list_db_calls = some "get_all_channels" ∧
    first_missing_db_attr on_channel_genre_db_calls = some "add_channel" := by
  decide

/-- C6: note sanitization.  For every input, a stored note is nonempty
(blank results are stored as null, never the empty string), at most
120 characters, contains no URL-pattern match (`https?://` followed
by a non-whitespace character), has its whitespace runs collapsed (no
two adjacent whitespace characters and every whitespace character is
a single plain space) and is trimmed on the left; and concretely the
input "Check this https://x.com out!!" yields the non-null note
"Check this out!!" while a URL-only input yields null. -/
theorem c6_clean_note_sanitization (s t : String) (h : _clean_note s = some t) :
    (t ≠ "" ∧ t.length ≤ 120 ∧ ¬ urlOcc t.data ∧
     (∀ a b, pyIsSpace a = true → pyIsSpace b = true → ¬ hasSub [a, b] t.data) ∧
     (∀ c ∈ t.data, pyIsSpace c = true → c = ' ') ∧
     (∀ e t2, t.data = e :: t2 → pyIsSpace e = false)) ∧
    _clean_note "Check this https://x.com out!!" = some "Check this out!!" ∧
    _clean_note "https://x.com" = none := by
  refine ⟨?_, by decide, by decide⟩
  unfold _clean_note at h
  cases hc : clean_note_list s.data with
  | none =>
    rw [hc] at h
    exact absurd h (by simp)
  | some r =>
    rw [hc] at h
    have ht : String.mk r = t := by simpa using h
    obtain ⟨hne, hlen, hurl, hpair, hspace, hhead⟩ := clean_note_list_props s.data r hc
    subst ht
    refine ⟨?_, ?_, hurl, hpair, hspace, hhead⟩
    · intro hcon
      exact hne (by simpa using congrArg String.data hcon)
    · simpa [String.length] using hlen

theorem c6_witness :
    _clean_note "Check this https://x.com out!!" = some "Check this out!!" ∧
    ("Check this out!!" : String) ≠ "" :=
  ⟨by decide,
   (c6_clean_note_sanitization "Check this https://x.com out!!" "Check this out!!"
     (by decide)).1.1⟩

/-- C7: custom donation amount parsing normalizes digit grouping
(spaces and commas) before parsing, so "15000", "15,000" and
"15 000" all create a donation of amount 15000, while "500" is
rejected as below the minimum, "2000000" as above the maximum and
"abc" as non-numeric, each with a distinct message and with the
store left unchanged (no DonationEvent created). -/
theorem c7_custom_amount_parsing :
    (on_custom_amount "15000" (some "trk_1") 42 "Dan" none 50 c7_state).2 =
      DonationOutcome.askNote "don_0" 15000 ∧
    (on_custom_amount "15,000" (some "trk_1") 42 "Dan" none 50 c7_state).2 =
      DonationOutcome.askNote "don_0" 15000 ∧
    (on_custom_amount "15 000" (some "trk_1") 42 "Dan" none 50 c7_state).2 =
      DonationOutcome.askNote "don_0" 15000 ∧
    (get_donation (on_custom_amount "15000" (some "trk_1") 42 "Dan" none 50
        c7_state).1 "don_0").map DonationEvent.amount = some 15000 ∧
    on_custom_amount "500" (some "trk_1") 42 "Dan" none 50 c7_state =
      (c7_state, DonationOutcome.answered "❌ Minimum amount is 1 000 so\x27m") ∧
    on_custom_amount "2000000" (some "trk_1") 42 "Dan" none 50 c7_state =
      (c7_state, DonationOutcome.answered "❌ Maximum amount is 1 000 000 so\x27m") ∧
    on_custom_amount "abc" (some "trk_1") 42 "Dan" none 50 c7_state =
      (c7_state, DonationOutcome.answered "❌ Please enter a valid number") ∧
    ("❌ Minimum amount is 1 000 so\x27m" ≠ "❌ Maximum amount is 1 000 000 so\x27m" ∧
     "❌ Minimum amount is 1 000 so\x27m" ≠ "❌ Please enter a valid number" ∧
     "❌ Maximum amount is 1 000 000 so\x27m" ≠ "❌ Please enter a valid number") := by
  decide

/-- C8: on confirmation of an anonymous donation (is_anonymous = 1)
the public appreciation message uses the generic placeholder
"Someone" and both the public message and the private artist
notification are independent of the donor identity (name, username
and fallback full name): changing the identity leaves both messages
unchanged.  When is_anonymous = 0 the stored donor display name is
used instead. -/
theorem c8_anonymous_donation_privacy (amount : Int)
    (artist_name track_title : String) (note : Option String)
    (n₁ n₂ u₁ u₂ : Option String) (f₁ f₂ : String) (s : String) (hs : s ≠ "") :
    donor_public_name 1 n₁ f₁ = "Someone" ∧
    appreciation_public (donor_public_name 1 n₁ f₁) amount artist_name
        track_title note =
      appreciation_public (donor_public_name 1 n₂ f₂) amount artist_name
        track_title note ∧
    creator_dm true n₁ u₁ amount track_title note =
      creator_dm true n₂ u₂ amount track_title note ∧
    donor_public_name 0 (some s) f₁ = s := by
  refine ⟨rfl, rfl, rfl, ?_⟩
  simp [donor_public_name, pyOrStr, hs]

theorem c8_witness :
    ("Dan" : String) ≠ "" ∧
    donor_public_name 0 (some "Dan") "Fallback" = "Dan" ∧
    donor_public_name 1 (some "Dan") "Fallback" = "Someone" :=
  ⟨by decide,
   (c8_anonymous_donation_privacy 10000 "Artist One" "Test Song" none
     (some "Dan") none none none "Fallback" "F2" "Dan" (by decide)).2.2.2,
   (c8_anonymous_donation_privacy 10000 "Artist One" "Test Song" none
     (some "Dan") none none none "Fallback" "F2" "Dan" (by decide)).1⟩

end SadoMusicBot





